import Mathlib

/-!
Shallow embedding of the VolSDF reproduction (`src/model.py`, `src/train.py`).

Tensors are modelled per ray / per colour channel as `List ℝ`; batched tensor
operations act componentwise along the batch dimension, so one ray (one row)
captures them.  Python runtime failures (`UnboundLocalError`, `AttributeError`,
shape mismatches) are modelled with `Except String`.
-/

namespace VolSDFRepro

/-! ### Python / torch runtime model -/

/-- Reading a Python local variable: `none` models a local that has not been
assigned yet, which raises `UnboundLocalError` at runtime. -/
def readLocal (v : Option ℝ) (name : String) : Except String ℝ :=
  match v with
  | some x => Except.ok x
  | none => Except.error ("UnboundLocalError: " ++ name)

/-- Modelled from the PyTorch API: the in-place autograd setter on
`torch.Tensor` is named `requires_grad_`; there is no method `require_grad_`. -/
def torchTensorMethods : List String :=
  ["requires_grad_", "reshape", "expand", "norm", "permute"]

/-- Attribute lookup on a `torch.Tensor`; a name outside the API raises
`AttributeError`. -/
def tensorGetattr (name : String) : Except String String :=
  if name ∈ torchTensorMethods then Except.ok name
  else Except.error ("AttributeError: torch.Tensor has no attribute " ++ name)

/-! ### Embedding (`src/model.py` lines 7-27) -/

/-- Embeds `torch.linspace(a, b, steps)`: `steps` evenly spaced values from
`a` to `b` (a single-element result is `[a]`). -/
noncomputable def linspace (a b : ℝ) (steps : ℕ) : List ℝ :=
  if steps = 1 then [a]
  else (List.range steps).map (fun (k : ℕ) => a + (b - a) * (k : ℝ) / ((steps : ℝ) - 1))

namespace Embedding

/-- Embeds `self.freq` on the `log_sampling` branch:
`torch.pow(2, torch.linspace(0, length - 1, steps = length))`. -/
noncomputable def freq (length : ℕ) : List ℝ :=
  (linspace 0 ((length : ℝ) - 1) length).map (fun e => (2 : ℝ) ^ e)

/-- Embeds `self.output_dim = 2 * length * input_dim + include_input * self.input_dim`
(a Python bool multiplies as 0 or 1). -/
def output_dim (input_dim length : ℕ) (include_input : Bool) : ℕ :=
  2 * length * input_dim + (if include_input then input_dim else 0)

/-- Embeds `Embedding.embed` for one input row `x`.  In the source,
`x[..., None] * self.freq` broadcasts to shape `[d, length]`, the stack of
`[sin, cos]` gives `[d, length, 2]`, the permute to `[length, 2, d]` followed
by a row-major reshape lays the entries out as, for each frequency `f`, the
row `sin (x_j * f)` over `j` followed by the row `cos (x_j * f)` over `j`;
finally `torch.cat([x, embed_vec], dim = -1)` prepends the raw coordinates. -/
noncomputable def embed (length : ℕ) (x : List ℝ) : List ℝ :=
  x ++ (freq length).flatMap
    (fun f => x.map (fun xj => Real.sin (xj * f)) ++ x.map (fun xj => Real.cos (xj * f)))

end Embedding

/-! ### Volume integrator `output2rgb` (`src/train.py` lines 11-21) -/

/-- Embeds `torch.cumprod` along the last dimension: running products. -/
def cumprod : List ℝ → List ℝ
  | [] => []
  | x :: xs => x :: (cumprod xs).map (fun y => x * y)

/-- Embeds `output2rgb` for one ray and one colour channel.
`t`, `density`, `c` are the per-sample depths, densities and colours.
`delta = t[1:] - t[:-1]`; `p = -delta * density[:-1]`;
`T = cat([0, cumprod(p)])`; `tau = cat([(1 - p) * T[:-1], T[-1]])`;
`rgb = sum(tau * c)`, plus `1 - sum(tau)` on a white background. -/
def output2rgb (t density c : List ℝ) (white_bkgd : Bool) : ℝ :=
  let delta := (t.tail.zip t).map (fun q => q.1 - q.2)
  let p := (delta.zip density).map (fun q => -q.1 * q.2)
  let T := (0 : ℝ) :: cumprod p
  let tau := (p.zip T).map (fun q => (1 - q.1) * q.2) ++ [T.getLastD 0]
  let rgb := ((tau.zip c).map (fun q => q.1 * q.2)).sum
  if white_bkgd then rgb + (1 - tau.sum) else rgb

/-- States the weight the claim and the spec prescribe for sample `i`
of one ray: local opacity `1 - exp (-σ_i δ_i)` times accumulated
transmittance `exp (-Σ_{j<i} σ_j δ_j)`.  Written from the spec's words, to
be compared with `output2rgb`. -/
noncomputable def specWeight (delta density : List ℝ) (i : ℕ) : ℝ :=
  (1 - Real.exp (-(density.getD i 0) * (delta.getD i 0))) *
    Real.exp (-(((List.range i).map (fun j => (density.getD j 0) * (delta.getD j 0))).sum))

/-! ### Eikonal term (`src/train.py` line 84) -/

/-- Embeds `F.mse_loss(gradient, torch.zeros_like(gradient))` for a batch of
3-dimensional gradients: the mean of the squared entries over all `3·n`
entries (the default reduction is the mean). -/
noncomputable def mse_loss_zero (g : List (ℝ × ℝ × ℝ)) : ℝ :=
  ((g.map (fun v => v.1 ^ 2 + v.2.1 ^ 2 + v.2.2 ^ 2)).sum) / (3 * g.length)

/-- Embeds the regularization term added to the loss at line 84 of
`src/train.py`: `l * (F.mse_loss(gradient, torch.zeros_like(gradient)) - 1)`. -/
noncomputable def eikonal_term (l : ℝ) (g : List (ℝ × ℝ × ℝ)) : ℝ :=
  l * (mse_loss_zero g - 1)

/-! ### VolSDF density (`src/model.py` lines 109-133) -/

namespace VolSDF

/-- Embeds `VolSDF.density_from_sdf`.  In the source the first statement is
`beta = torch.abs(beta) + 1e-7`: `beta` is a local variable of the function
(it is assigned in the body), and it is read on the right-hand side before
any assignment, so the read is of an unbound local.  The remaining line uses
`self.beta` inside the exponential but the local `beta` as the divisor. -/
noncomputable def density_from_sdf (self_beta : ℝ) (d : ℝ) : Except String ℝ := do
  let b ← readLocal none "beta"
  let beta := |b| + 1e-7
  pure ((0.5 + 0.5 * Real.sign d * (1 - Real.exp (-|d| / self_beta))) * 1 / beta)

/-- Embeds the density computation of `VolSDF.forward` (lines 110 and 113):
the same unbound-local read `beta = torch.abs(beta) + 1e-7` precedes the
density formula. -/
noncomputable def forward_density (d : ℝ) : Except String ℝ := do
  let b ← readLocal none "beta"
  let beta := |b| + 1e-7
  pure ((0.5 + 0.5 * Real.sign d * (1 - Real.exp (-|d| / beta))) * 1 / beta)

end VolSDF

/-! ### GeometryNetwork (`src/model.py` lines 30-72) -/

namespace GeometryNetwork

/-- Lists the attributes `GeometryNetwork.__init__` has assigned on `self`
when line 42 (the construction of `pts_linears`) executes. -/
def attrsAtLine42 : List String :=
  ["skip_connect", "input_dim", "output_dim", "embedding", "r", "bound_scale"]

/-- Numeric attribute lookup on the partially initialised `GeometryNetwork`;
a name that was never assigned raises `AttributeError`. -/
def natAttr (input_dim output_dim : ℕ) (name : String) : Except String ℕ :=
  if name = "input_dim" then Except.ok input_dim
  else if name = "output_dim" then Except.ok output_dim
  else Except.error ("AttributeError: GeometryNetwork has no attribute " ++ name)

/-- Embeds the construction of `self.pts_linears` at line 42 as the list of
`(in_features, out_features)` shapes:
`[Linear(embedding.output_dim, W)] + [Linear(W, W - self.input_dims) if i+1 in
skip_connect else Linear(W, W) for i in range(1, D-1)]`.  The reduced branch
reads the attribute `self.input_dims` (the attribute assigned at line 35 is
named `input_dim`). -/
def init_pts_linears (input_dim output_dim embed_out D W : ℕ) (skip_connect : List ℕ) :
    Except String (List (ℕ × ℕ)) := do
  let tail ← (List.range' 1 (D - 2)).mapM (fun i =>
    if i + 1 ∈ skip_connect then do
      let dims ← natAttr input_dim output_dim "input_dims"
      pure (W, W - dims)
    else pure (W, W))
  pure ((embed_out, W) :: tail)

/-- Embeds the 2-norm `torch.norm(x, p=2, dim=-1)` of one 3D point. -/
noncomputable def l2norm (x : ℝ × ℝ × ℝ) : ℝ :=
  Real.sqrt (x.1 ^ 2 + x.2.1 ^ 2 + x.2.2 ^ 2)

/-- Embeds `GeometryNetwork.forward`.  The multilayer perceptron `output` and
the autograd gradient are abstracted as function parameters `output_fn` and
`grad_fn`; the first statement of the source body is the tensor method call
`x.require_grad_(True)`. -/
noncomputable def forward (output_fn : ℝ × ℝ × ℝ → ℝ × List ℝ)
    (grad_fn : ℝ × ℝ × ℝ → ℝ × ℝ × ℝ) (r bound_scale : ℝ) (x : ℝ × ℝ × ℝ) :
    Except String (ℝ × List ℝ × (ℝ × ℝ × ℝ)) := do
  let _ ← tensorGetattr "require_grad_"
  let (d, feature) := output_fn x
  let bound := bound_scale * (r - l2norm x)
  pure (min d bound, feature, grad_fn x)

end GeometryNetwork

/-! ### RadienceFieldNetwork (`src/model.py` lines 75-97) -/

namespace RadienceFieldNetwork

/-- Embeds `torch.cat` with the default `dim = 0` at the shape level: for 2-D
inputs the sizes must match in every dimension except dimension 0, otherwise
a `RuntimeError` is raised; on success the row counts add. -/
def cat_dim0 : List (ℕ × ℕ) → Except String (ℕ × ℕ)
  | [] => Except.error "RuntimeError: torch.cat expects a non-empty list"
  | s :: rest =>
    if rest.all (fun q => q.2 = s.2) then
      Except.ok (s.1 + ((rest.map Prod.fst).sum), s.2)
    else Except.error "RuntimeError: Sizes of tensors must match except in dimension 0"

/-- Embeds the shape behaviour of `RadienceFieldNetwork.forward` up to line 90:
`view` is embedded (width `3 + 2·view_length·3`), then
`x = torch.cat([points, view, normals, feature])` concatenates along the
default dimension 0 the four tensors of widths 3, embedded-view width, 3 and
`feature_length`. -/
def forward_cat (n view_length feature_length : ℕ) : Except String (ℕ × ℕ) :=
  cat_dim0 [(n, 3), (n, Embedding.output_dim 3 view_length true), (n, 3), (n, feature_length)]

end RadienceFieldNetwork

/-! ### VolSDF sdf clamp (`src/model.py` lines 119-133) -/

namespace VolSDF

/-- Embeds `VolSDF.get_sdf`: the raw geometry-network output is abstracted as
`output_d`; the source clamps it with
`d = torch.minimum(d, self.r - torch.norm(x, dim = -1, p = 2))`. -/
noncomputable def get_sdf (output_d : ℝ × ℝ × ℝ → ℝ) (r : ℝ) (x : ℝ × ℝ × ℝ) : ℝ :=
  min (output_d x) (r - GeometryNetwork.l2norm x)

/-- Embeds `VolSDF.density`: the raw output is clamped by the same sphere
bound (line 131) and the clamped distance is passed to `density_from_sdf`. -/
noncomputable def density (output_d : ℝ × ℝ × ℝ → ℝ) (r self_beta : ℝ) (x : ℝ × ℝ × ℝ) :
    Except String ℝ :=
  density_from_sdf self_beta (min (output_d x) (r - GeometryNetwork.l2norm x))

end VolSDF

/-! ### Training loop (`src/train.py` lines 61-113) -/

/-- Embeds the learning-rate update of lines 92-96:
`new_lrate = lr * (0.1 ** (global_step / (lr_decay * 1000)))`, with Python's
true division in the exponent. -/
noncomputable def new_lrate (lr : ℝ) (lr_decay : ℕ) (global_step : ℕ) : ℝ :=
  lr * (0.1 : ℝ) ^ ((global_step : ℝ) / ((lr_decay : ℝ) * 1000))

/-- Embeds `for param_group in optimizer.param_groups: param_group['lr'] = new_lrate`. -/
noncomputable def set_param_groups (groups : List ℝ) (v : ℝ) : List ℝ :=
  groups.map (fun _ => v)

/-- Embeds the body of one iteration of the inner loop of `train` (lines
81-90 of `src/train.py`): the iteration first runs the forward pass
`volume_rendering` (line 82), which evaluates `model(pts, rays_d)`
(line 35), i.e. `VolSDF.forward`, whose density computation raises (see
`VolSDF.forward_density`); only if the body's forward pass returns do
`loss.backward()` and `optimizer.step()` run and `global_step` increment. -/
noncomputable def train_body (d : ℝ) (g : ℕ) : Except String ℕ := do
  let _ ← VolSDF.forward_density d
  pure (g + 1)

/-- Embeds one pass of the inner `for idx, data in enumerate(train_loader)`
loop over `k` remaining batches, threading `global_step` through `body` (one
batch iteration); an exception raised by the body propagates out of the
loop, and the loop breaks when `global_step > N_iters`. -/
def run_epoch (body : ℕ → Except String ℕ) : ℕ → ℕ → ℕ → Except String ℕ
  | 0, _, g => Except.ok g
  | k + 1, N, g => do
    let g1 ← body g
    if N < g1 then pure g1 else run_epoch body k N g1

/-- Embeds the outer `while global_step < N_iters` loop of `train`, with `k`
batches yielded per pass of the data loader; `fuel` bounds the number of
`while`-condition checks, `none` marking fuel exhaustion (the source loop
has no such bound), and an exception raised inside a pass propagates out of
both loops. -/
def train_loop (body : ℕ → Except String ℕ) (fuel k N : ℕ) (g : ℕ) :
    Option (Except String ℕ) :=
  match fuel with
  | 0 => none
  | fuel + 1 =>
    if g < N then
      match run_epoch body k N g with
      | Except.error e => some (Except.error e)
      | Except.ok g1 => train_loop body fuel k N g1
    else some (Except.ok g)

/-- Embeds the tail of `train`: only when the loop exits without an exception
is the checkpoint named `final` saved with the final step count (line 112). -/
def train_result (body : ℕ → Except String ℕ) (fuel k N : ℕ) :
    Option (Except String (ℕ × String)) :=
  (train_loop body fuel k N 0).map (Except.map (fun g => (g, "final")))

/-! ### Theorems -/

/-- C1: the claim states `VolSDF.density_from_sdf(d)` (and the density inside
`VolSDF.forward`) returns `(0.5 + 0.5·sign d·(1 − exp (−|d|/β)))/β` with
`β = |beta| + 1e-7`.  On the code both functions raise `UnboundLocalError`
at their first statement `beta = torch.abs(beta) + 1e-7`, which reads the
local `beta` before it is assigned, so no density is ever returned. -/
theorem density_from_sdf_unbound_local (self_beta d : ℝ) :
    VolSDF.density_from_sdf self_beta d = Except.error "UnboundLocalError: beta" ∧
    VolSDF.forward_density d = Except.error "UnboundLocalError: beta" :=
  ⟨rfl, rfl⟩

/-- C2: the claim states `output2rgb` computes the rendering sum with the
weight `(1 − exp (−σ_i δ_i)) · exp (−Σ_{j<i} σ_j δ_j)` for sample `i`.  On
the code no exponential is ever taken: the transmittance accumulator starts
at 0 (so the first sample always has weight 0) and the running factors are
`-σ δ`, which makes weights negative.  At one ray with `t = [0, 1]`,
`σ = [1, 1]` and unit colors, the code returns `-1`, while the claimed
weight of sample 0 alone is `1 - exp (-1) > 0` and all claimed weights are
nonnegative, so the claimed sum of unit colors is positive. -/
theorem output2rgb_missing_exp :
    output2rgb [0, 1] [1, 1] [1, 1] false = -1 ∧
    specWeight [1] [1, 1] 0 = 1 - Real.exp (-1) ∧
    Real.exp (-1) < 1 := by
  refine ⟨?_, ?_, ?_⟩
  · norm_num [output2rgb, cumprod]
  · simp [specWeight]
  · exact Real.exp_lt_one_iff.mpr (by norm_num)

/-- C3: the claim states the regularization term `l * (mse_loss(gradient, 0) - 1)`
is nonnegative and vanishes exactly at unit-norm gradients.  On the code the
term equals `-l` at a zero gradient, and it also vanishes at the non-unit
gradient `(√3, 0, 0)`. -/
theorem eikonal_term_can_be_negative :
    eikonal_term 1 [((0 : ℝ), 0, 0)] = -1 ∧
    eikonal_term 1 [(Real.sqrt 3, 0, 0)] = 0 ∧
    GeometryNetwork.l2norm (Real.sqrt 3, 0, 0) ≠ 1 := by
  refine ⟨?_, ?_, ?_⟩
  · simp [eikonal_term, mse_loss_zero]
  · have h3 : Real.sqrt 3 ^ 2 = 3 := Real.sq_sqrt (by norm_num)
    simp [eikonal_term, mse_loss_zero, h3]
  · have h1 : (1 : ℝ) < Real.sqrt 3 := by
      rw [show (1 : ℝ) = Real.sqrt 1 from (Real.sqrt_one).symm]
      exact Real.sqrt_lt_sqrt (by norm_num) (by norm_num)
    have : GeometryNetwork.l2norm (Real.sqrt 3, 0, 0) = Real.sqrt 3 := by
      have h3 : Real.sqrt 3 ^ 2 = 3 := Real.sq_sqrt (by norm_num)
      simp [GeometryNetwork.l2norm, h3]
    rw [this]
    exact ne_of_gt h1

/-- C5: the claim states `GeometryNetwork.forward(x)` returns the triple of
clamped signed distance, feature vector and gradient.  On the code the first
statement `x.require_grad_(True)` raises `AttributeError`: `torch.Tensor`
provides `requires_grad_`, not `require_grad_`, so `forward` never returns. -/
theorem geometry_forward_attribute_error (output_fn : ℝ × ℝ × ℝ → ℝ × List ℝ)
    (grad_fn : ℝ × ℝ × ℝ → ℝ × ℝ × ℝ) (r bound_scale : ℝ) (x : ℝ × ℝ × ℝ) :
    GeometryNetwork.forward output_fn grad_fn r bound_scale x =
      Except.error "AttributeError: torch.Tensor has no attribute require_grad_" := by
  rfl

/-- C6: the claim states `RadienceFieldNetwork.forward` returns a 3-component
color in (0, 1).  On the code `torch.cat([points, view, normals, feature])`
concatenates along the default dimension 0, and the widths 3 (points), 27
(embedded view with the default `view_length = 4`), 3 (normals) and 256
(feature) do not match, so a `RuntimeError` is raised before any color is
produced. -/
theorem radience_forward_cat_mismatch (n : ℕ) :
    RadienceFieldNetwork.forward_cat n 4 256 =
      Except.error "RuntimeError: Sizes of tensors must match except in dimension 0" := by
  rfl

/-- C8: the claim states constructing `GeometryNetwork` with the defaults
`D = 8`, `W = 256`, `skip_connect = [4]` succeeds.  On the code, building
`pts_linears` evaluates `W - self.input_dims` for the layer with `i + 1 = 4`,
and `input_dims` was never assigned (line 35 assigns `input_dim`), so
`__init__` raises `AttributeError`. -/
theorem geometry_init_attribute_error :
    GeometryNetwork.init_pts_linears 3 256 (Embedding.output_dim 3 10 true) 8 256 [4] =
      Except.error "AttributeError: GeometryNetwork has no attribute input_dims" := by
  rfl

/-- C9: the reported signed distance `VolSDF.get_sdf(x)` is clamped by
`r - ‖x‖₂`, hence is at most that bound and is nonpositive on or outside the
bounding sphere, and `VolSDF.density` converts exactly the same clamped
distance. -/
theorem get_sdf_sphere_bound (output_d : ℝ × ℝ × ℝ → ℝ) (r self_beta : ℝ) (x : ℝ × ℝ × ℝ) :
    VolSDF.get_sdf output_d r x ≤ r - GeometryNetwork.l2norm x ∧
    (r ≤ GeometryNetwork.l2norm x → VolSDF.get_sdf output_d r x ≤ 0) ∧
    VolSDF.density output_d r self_beta x =
      VolSDF.density_from_sdf self_beta (VolSDF.get_sdf output_d r x) := by
  refine ⟨min_le_right _ _, ?_, rfl⟩
  intro hx
  exact le_trans (min_le_right _ _) (sub_nonpos.mpr hx)

/-- Witness for C9 at the origin with `r = 0`: the origin lies on the sphere
and the reported distance there is nonpositive. -/
theorem get_sdf_sphere_bound_witness :
    VolSDF.get_sdf (fun _ => (0 : ℝ)) 0 (0, 0, 0) ≤ 0 :=
  (get_sdf_sphere_bound (fun _ => (0 : ℝ)) 0 1 (0, 0, 0)).2.1
    (by simp [GeometryNetwork.l2norm])

/-- C7: after step `s` the training loop sets every parameter group's learning
rate to `new_lrate lr lr_decay s = lr · 0.1 ^ (s / (1000·lr_decay))`; this
schedule is strictly decreasing in `s` and drops by exactly a factor of 10
every `1000·lr_decay` steps. -/
theorem new_lrate_schedule (lr : ℝ) (lr_decay s s2 : ℕ) (groups : List ℝ)
    (hlr : 0 < lr) (hd : 0 < lr_decay) (hs : s < s2) :
    new_lrate lr lr_decay s2 < new_lrate lr lr_decay s ∧
    new_lrate lr lr_decay (s + 1000 * lr_decay) = new_lrate lr lr_decay s / 10 ∧
    ∀ g ∈ set_param_groups groups (new_lrate lr lr_decay s), g = new_lrate lr lr_decay s := by
  have hdne : ((lr_decay : ℝ)) ≠ 0 := Nat.cast_ne_zero.mpr hd.ne'
  refine ⟨?_, ?_, ?_⟩
  · unfold new_lrate
    refine mul_lt_mul_of_pos_left ?_ hlr
    refine Real.rpow_lt_rpow_of_exponent_gt (by norm_num) (by norm_num) ?_
    gcongr
  · unfold new_lrate
    have h1 : ((s + 1000 * lr_decay : ℕ) : ℝ) / ((lr_decay : ℝ) * 1000) =
        (s : ℝ) / ((lr_decay : ℝ) * 1000) + 1 := by
      push_cast
      field_simp
      ring
    rw [h1, Real.rpow_add (by norm_num) _ 1, Real.rpow_one]
    ring
  · simp [set_param_groups]

/-- Witness for C7 with `lr = 1`, `lr_decay = 1`: the rate after step 1 is
below the rate after step 0, and step 1000 divides the rate by 10. -/
theorem new_lrate_schedule_witness :
    new_lrate 1 1 1 < new_lrate 1 1 0 ∧
    new_lrate 1 1 (0 + 1000 * 1) = new_lrate 1 1 0 / 10 ∧
    ∀ g ∈ set_param_groups [] (new_lrate 1 1 0), g = new_lrate 1 1 0 :=
  new_lrate_schedule 1 1 0 1 [] (by norm_num) (by norm_num) (by norm_num)

/-- Helper: `linspace` returns `steps` values. -/
theorem linspace_length (a b : ℝ) (steps : ℕ) : (linspace a b steps).length = steps := by
  unfold linspace
  split
  · simp [*]
  · rw [List.length_map, List.length_range]

/-- Helper: the `k`-th value of `linspace 0 (L - 1) L` is exactly `k`. -/
theorem linspace_get (L k : ℕ) (hk : k < L) :
    (linspace 0 ((L : ℝ) - 1) L)[k]? = some (k : ℝ) := by
  unfold linspace
  by_cases h1 : L = 1
  · subst h1
    rw [if_pos rfl]
    have hk0 : k = 0 := by omega
    subst hk0
    simp
  · rw [if_neg h1]
    have hL : 2 ≤ L := by omega
    have hne : ((L : ℝ) - 1) ≠ 0 := by
      have h2 : (2 : ℝ) ≤ (L : ℝ) := by exact_mod_cast hL
      intro h
      nlinarith
    rw [List.getElem?_map, List.getElem?_range hk]
    simp only [Option.map_some']
    congr 1
    rw [zero_add, sub_zero, mul_comm, mul_div_assoc, div_self hne, mul_one]

/-- Helper: the frequency bank has one entry per requested frequency. -/
theorem freq_length (L : ℕ) : (Embedding.freq L).length = L := by
  rw [Embedding.freq, List.length_map, linspace_length]

/-- Helper: on the `log_sampling` branch the `k`-th frequency is `2 ^ k`. -/
theorem freq_get (L k : ℕ) (hk : k < L) : (Embedding.freq L)[k]? = some ((2 : ℝ) ^ k) := by
  rw [Embedding.freq, List.getElem?_map, linspace_get L k hk]
  simp [Real.rpow_natCast]

/-- Helper: the length of a flatMap whose chunks all have length `c`. -/
theorem flatMap_uniform_length (g : ℝ → List ℝ) (c : ℕ) (hc : ∀ f, (g f).length = c) :
    ∀ l : List ℝ, (l.flatMap g).length = l.length * c := by
  intro l
  induction l with
  | nil => simp
  | cons a l ih =>
    rw [List.flatMap_cons, List.length_append, ih, hc, List.length_cons]
    ring

/-- Helper: indexing into a flatMap whose chunks all have length `c`. -/
theorem flatMap_uniform_get (g : ℝ → List ℝ) (c : ℕ) (hc : ∀ f, (g f).length = c) :
    ∀ (l : List ℝ) (k off : ℕ) (f : ℝ), l[k]? = some f → off < c →
      (l.flatMap g)[k * c + off]? = (g f)[off]? := by
  intro l
  induction l with
  | nil =>
    intro k off f h hoff
    simp at h
  | cons a l ih =>
    intro k off f h hoff
    cases k with
    | zero =>
      simp only [List.getElem?_cons_zero, Option.some.injEq] at h
      subst h
      rw [List.flatMap_cons, Nat.zero_mul, Nat.zero_add, List.getElem?_append,
        if_pos (by rw [hc]; exact hoff)]
    | succ k =>
      rw [List.flatMap_cons,
        show (k + 1) * c + off = c + (k * c + off) by ring,
        List.getElem?_append_right (by rw [hc]; omega),
        hc, Nat.add_sub_cancel_left]
      exact ih k off f (by simpa using h) hoff

/-- C4: for an input row of `input_dim` coordinates, `Embedding.embed` returns
`output_dim = 2·length·input_dim + input_dim` entries (with `include_input`):
the raw coordinates first, then for the `k`-th frequency `f_k = 2 ^ k` (the
`log_sampling` default) the entries `sin (x_j · f_k)` and `cos (x_j · f_k)`. -/
theorem embedding_embed_spec (L : ℕ) (x : List ℝ) (k j : ℕ) (hk : k < L) (hj : j < x.length) :
    (Embedding.embed L x).length = Embedding.output_dim x.length L true ∧
    (Embedding.embed L x)[j]? = some x[j] ∧
    (Embedding.freq L)[k]? = some ((2 : ℝ) ^ k) ∧
    (Embedding.embed L x)[x.length + 2 * k * x.length + j]? =
      some (Real.sin (x[j] * 2 ^ k)) ∧
    (Embedding.embed L x)[x.length + (2 * k + 1) * x.length + j]? =
      some (Real.cos (x[j] * 2 ^ k)) := by
  have hc : ∀ f : ℝ, ((fun f => x.map (fun xj => Real.sin (xj * f)) ++
      x.map (fun xj => Real.cos (xj * f))) f).length = 2 * x.length := by
    intro f
    simp only [List.length_append, List.length_map]
    ring
  refine ⟨?_, ?_, freq_get L k hk, ?_, ?_⟩
  · rw [Embedding.embed, List.length_append, flatMap_uniform_length _ (2 * x.length) hc,
      freq_length, Embedding.output_dim]
    simp only [if_true]
    ring
  · rw [Embedding.embed, List.getElem?_append, if_pos hj, List.getElem?_eq_getElem hj]
  · rw [Embedding.embed,
      show x.length + 2 * k * x.length + j = x.length + (k * (2 * x.length) + j) by ring,
      List.getElem?_append_right (Nat.le_add_right _ _), Nat.add_sub_cancel_left,
      flatMap_uniform_get _ (2 * x.length) hc (Embedding.freq L) k j ((2 : ℝ) ^ k)
        (freq_get L k hk) (by omega),
      List.getElem?_append, if_pos (by rw [List.length_map]; exact hj),
      List.getElem?_map, List.getElem?_eq_getElem hj]
    rfl
  · rw [Embedding.embed,
      show x.length + (2 * k + 1) * x.length + j =
        x.length + (k * (2 * x.length) + (x.length + j)) by ring,
      List.getElem?_append_right (Nat.le_add_right _ _), Nat.add_sub_cancel_left,
      flatMap_uniform_get _ (2 * x.length) hc (Embedding.freq L) k (x.length + j) ((2 : ℝ) ^ k)
        (freq_get L k hk) (by omega),
      List.getElem?_append_right (by rw [List.length_map]; omega), List.length_map,
      Nat.add_sub_cancel_left, List.getElem?_map, List.getElem?_eq_getElem hj]
    rfl

/-- Witness for C4 at the single coordinate `[1]` with one frequency: the
entry after the raw coordinate is `sin (1 · 2 ^ 0)`. -/
theorem embedding_embed_spec_witness :
    (Embedding.embed 1 [(1 : ℝ)])[1 + 2 * 0 * 1 + 0]? =
      some (Real.sin ((1 : ℝ) * 2 ^ 0)) :=
  (embedding_embed_spec 1 [(1 : ℝ)] 0 0 (by norm_num) (by norm_num)).2.2.2.1

/-- Helper: binding after a raised exception propagates the exception. -/
theorem except_error_bind {α β : Type} (e : String) (f : α → Except String β) :
    (Except.error e : Except String α) >>= f = Except.error e := rfl

/-- C10: the claim states that, provided the loader yields at least one
batch per pass, `train` performs at least `N_iters` optimizer updates and
then saves the checkpoint named `final`.  On the code the very first batch
iteration raises `UnboundLocalError` inside `VolSDF.forward` (reached from
line 82 through `volume_rendering` and `model(pts, rays_d)` at line 35)
before `optimizer.step()` ever executes — and the model cannot even be
constructed, see C8 — so for every positive `N_iters` and any fuel the loop
aborts with zero completed updates and the `final` checkpoint is never
saved. -/
theorem train_aborts_on_first_batch (fuel k N : ℕ) (d : ℝ) :
    train_result (train_body d) (fuel + 1) (k + 1) (N + 1) =
      some (Except.error "UnboundLocalError: beta") := by
  simp [train_result, train_loop, run_epoch, train_body, VolSDF.forward_density,
    readLocal, except_error_bind, Nat.succ_pos]
  rfl

end VolSDFRepro
